import Mathlib

/-!
Verification development for the AniList-id → internal-slug resolution pipeline
(`episodeList.controller.js`, `episodeList.extractor.js` and the helper
variants).  Network and DOM effects are modelled by explicit oracle
parameters; JavaScript strings are modelled by `String`, JS numbers used as
scores by `ℚ`, the process-wide `Map` cache by an association list threaded
through each function.
-/

/-! ## Generic string helpers (models of the JS primitives used) -/

/-- Model of the core ASCII portion of the JS `\s` class (space, tab, LF, CR,
vertical tab, form feed). -/
def jsSpace (c : Char) : Bool :=
  c == ' ' || c == '\t' || c == '\n' || c == '\r' || c == '\u000B' || c == '\u000C'

/-- Model of the JS `\w` class: ASCII letters, digits, underscore. -/
def isWordChar (c : Char) : Bool :=
  c.isAlphanum || c == '_'

/-- ASCII model of `String.prototype.toLowerCase` on a single character. -/
def jsLowerChar (c : Char) : Char :=
  if c.isUpper then Char.ofNat (c.toNat + 32) else c

/-- ASCII model of `String.prototype.toLowerCase`. -/
def jsToLower (s : String) : String :=
  String.mk (s.data.map jsLowerChar)

/-- Does `l` start with `p`?  (Model of matching a literal at a position.) -/
def listStartsWith : List Char → List Char → Bool
  | _, [] => true
  | [], _ :: _ => false
  | a :: as, b :: bs => a == b && listStartsWith as bs

/-- Model of JS `String.prototype.includes` on the underlying character lists
(`hay.includes(needle)`); the empty needle is contained in every string. -/
def listContains : List Char → List Char → Bool
  | [], needle => needle.isEmpty
  | a :: as, needle => listStartsWith (a :: as) needle || listContains as needle

/-- Split a character list at every occurrence of `sep` (model of JS
`String.prototype.split` with a single-character separator, the only form the
source uses).  Always yields at least one group. -/
def splitOnChar (sep : Char) : List Char → List (List Char)
  | [] => [[]]
  | c :: rest =>
    let r := splitOnChar sep rest
    if c == sep then [] :: r
    else
      match r with
      | [] => [[c]]
      | g :: gs => (c :: g) :: gs

/-- JS `s.split(sep)` for a one-character separator. -/
def jsSplit (s : String) (sep : Char) : List String :=
  (splitOnChar sep s.data).map String.mk

/-- Model of `link.split('/').pop()` (JS `split` always yields a non-empty
array, so `pop` is total). -/
def lastSegment (s : String) : String :=
  (jsSplit s '/').getLastD ""

/-! ## Levenshtein distance (`levenshteinDistance` in
`episodeList.controller.js` and in the part_000 helper; identical code).
The JS builds a DP table row by row; `levRowAux` computes the entries
`track[j][1..]` of one row from the previous row, walking `str1`. -/

/-- One row of the DP table: `prev` is the suffix of the previous row starting
at column `i-1`, `left` is the entry just computed (`track[j][i-1]`). -/
def levRowAux (c2 : Char) : List Char → List Nat → Nat → List Nat
  | [], _, _ => []
  | c1 :: s1rest, prev, left =>
    match prev with
    | [] => []
    | pdiag :: prest =>
      let pup := match prest with
        | [] => 0
        | u :: _ => u
      let indicator := if c1 == c2 then 0 else 1
      let cur := min (left + 1) (min (pup + 1) (pdiag + indicator))
      cur :: levRowAux c2 s1rest prest cur

/-- Fold over `str2` building successive DP rows; `j` is the current row
index (`track[j][0] = j`). -/
def levFold (s1 : List Char) : List Char → List Nat → Nat → List Nat
  | [], prev, _ => prev
  | c2 :: s2rest, prev, j =>
    levFold s1 s2rest (j :: levRowAux c2 s1 prev j) (j + 1)

/-- `levenshteinDistance(str1, str2)`: final cell `track[str2.length][str1.length]`. -/
def levenshteinDistance (str1 str2 : String) : Nat :=
  let s1 := str1.data
  let s2 := str2.data
  (levFold s1 s2 (List.range (s1.length + 1)) 1).getLastD 0

/-! ## Title matcher of the controller / part_000 (`isReasonableMatch`,
identical in both files). -/

/-- `normalize` inside `isReasonableMatch`:
`str.toLowerCase().replace(/[^a-z0-9]/g, '')`. -/
def normalizeTitle (str : String) : String :=
  String.mk ((jsToLower str).data.filter (fun c => c.isLower || c.isDigit))

/-- The similarity value of the edit-distance branch of `isReasonableMatch`:
`(longerLength - distance) / longerLength` over the normalized titles, as the
exact rational `mkRat (longerLength - distance) longerLength` (the degenerate
`longerLength == 0` case of the JS returns `true` before this expression is
reached; we give it score 1 so the score matches acceptance). -/
def similarityScore (title1 title2 : String) : ℚ :=
  let n1 := normalizeTitle title1
  let n2 := normalizeTitle title2
  let longerLength := max n1.length n2.length
  if longerLength = 0 then 1
  else mkRat ((longerLength : Int) - (levenshteinDistance n1 n2 : Int)) longerLength

/-- `isReasonableMatch(title1, title2)` from `episodeList.controller.js`
(the part_000 helper contains the very same function).  The JS comparison
`(longerLength - distance) / longerLength > 0.7` is the exact rational
comparison `mkRat (longerLength - distance) longerLength > 7/10`. -/
def isReasonableMatch (title1 title2 : String) : Bool :=
  if title1 = "" ∨ title2 = "" then false
  else
    let normalizedTitle1 := normalizeTitle title1
    let normalizedTitle2 := normalizeTitle title2
    if normalizedTitle1 = normalizedTitle2 then true
    else if listContains normalizedTitle1.data normalizedTitle2.data
         || listContains normalizedTitle2.data normalizedTitle1.data then true
    else
      let longerLength := max normalizedTitle1.length normalizedTitle2.length
      if longerLength = 0 then true
      else
        let distance := levenshteinDistance normalizedTitle1 normalizedTitle2
        decide ((mkRat ((longerLength : Int) - (distance : Int)) longerLength : ℚ) > mkRat 7 10)

/-! ## Title matcher of part_001 (`cleanseTitle`, `calculateSimilarity`). -/

/-- Collapse maximal runs of whitespace into a single `' '`
(model of `.replace(/\s+/g, ' ')`). -/
def collapseRuns : List Char → List Char
  | [] => []
  | [c] => [if jsSpace c then ' ' else c]
  | c1 :: c2 :: rest =>
    if jsSpace c1 && jsSpace c2 then collapseRuns (c2 :: rest)
    else (if jsSpace c1 then ' ' else c1) :: collapseRuns (c2 :: rest)

/-- Model of `String.prototype.trim` on character lists. -/
def jsTrim (l : List Char) : List Char :=
  ((l.dropWhile jsSpace).reverse.dropWhile jsSpace).reverse

/-- Model of `String.prototype.trim`. -/
def jsTrimString (s : String) : String :=
  String.mk (jsTrim s.data)

/-- `cleanseTitle(title)` from part_001: lower-case, strip characters outside
`\w`/`\s`, collapse whitespace runs, trim. -/
def cleanseTitle (title : String) : String :=
  if title = "" then ""
  else String.mk (jsTrim (collapseRuns
    ((jsToLower title).data.filter (fun c => isWordChar c || jsSpace c))))

/-- `calculateSimilarity(str1, str2)` from part_001.  The decimal constants
0.9 / 0.8 of the JS are the rationals 9/10 and 8/10;
`shorterLength / longerLength * 0.9` is the exact rational
`mkRat (9 * shorterLength) (10 * longerLength)`, and likewise for the
word-overlap branch. -/
def calculateSimilarity (str1 str2 : String) : ℚ :=
  if str1 = "" ∨ str2 = "" then 0
  else
    let s1 := cleanseTitle str1
    let s2 := cleanseTitle str2
    if s1 = s2 then 1
    else if listContains s1.data s2.data || listContains s2.data s1.data then
      mkRat (9 * (min s1.length s2.length : Int)) (10 * max s1.length s2.length)
    else
      let words1 := (jsSplit s1 ' ').filter (fun w => w.length > 2)
      let words2 := (jsSplit s2 ' ').filter (fun w => w.length > 2)
      let matchCount := (words1.filter (fun w => words2.contains w)).length
      let maxWords := max words1.length words2.length
      if maxWords > 0 then mkRat (8 * (matchCount : Int)) (10 * maxWords) else 0

example : levenshteinDistance "kitten" "sitting" = 3 := by decide

example : levenshteinDistance "abc" "abc" = 0 := by decide

example : normalizeTitle "One Piece: Stampede!" = "onepiecestampede" := by decide

example : isReasonableMatch "One Piece" "one-piece" = true := by decide

example : cleanseTitle "  One  Piece: Movie! " = "one piece movie" := by decide

example : calculateSimilarity "one piece" "one" = mkRat 3 10 := by decide

/-! ## Process-wide cache and network-effect model

The JS `Map` caches (`ANILIST_CACHE`, `ANILIST_ID_CACHE`) are modelled as
association lists threaded through every function; `Map.set` conses a new
binding (later `Map.get` finds the newest binding, matching overwrite
semantics).  Each outbound HTTP call is recorded in a `NetCall` log, and its
result is supplied by an oracle parameter: `Fetch.fail` models a rejected
promise (network error / malformed document), `Fetch.ok` a parsed response. -/

abbrev Cache : Type := List (String × String)

/-- `Map.get` / object-key lookup: first (most recent) binding wins. -/
def cacheLookup : List (String × String) → String → Option String
  | [], _ => none
  | (k, v) :: rest, key => if key = k then some v else cacheLookup rest key

/-- `Map.set(key, value)`. -/
def cacheInsert (c : Cache) (k v : String) : Cache := (k, v) :: c

/-- One outbound network call of the resolution pipeline. -/
inductive NetCall where
  | metaFetch (anilistId : String)
  | search (term : String)
deriving DecidableEq

/-- Outcome of one HTTP fetch: a rejected promise, or a parsed result. -/
inductive Fetch (α : Type) where
  | fail
  | ok (v : α)
deriving DecidableEq

/-- The fields of the AniList `Media` payload the resolvers read (`title.english`,
`title.romaji`, `synonyms`); absent titles model GraphQL `null`. -/
structure MediaData where
  english : Option String
  romaji : Option String
  synonyms : List String
deriving DecidableEq

/-- Outcome of the AniList GraphQL query: network failure, a payload without
`data.data.Media`, or a media record. -/
inductive MetaOutcome where
  | fail
  | noMedia
  | ok (m : MediaData)
deriving DecidableEq

/-- One `.flw-item` of a search-result document, as read by the extraction
loops: the `.film-name` text (before `.trim()`), and the `.film-poster`
`href` attribute (`none` models a missing attribute). -/
structure RawItem where
  titleText : String
  href : Option String
deriving DecidableEq

/-- An entry of `foundAnimes` in the controller / part_000 search loops. -/
structure FoundAnime where
  title : String
  id : String
deriving DecidableEq

/-- The `animeItems.each` extraction of `findInternalIdFromAnilist`
(controller) and `getInternalIdFromAnilistId` (part_000): keep an item iff
its link is present and truthy (non-empty); the title may be empty. -/
def extractFoundAnimes (items : List RawItem) : List FoundAnime :=
  items.filterMap fun it =>
    match it.href with
    | none => none
    | some link =>
      if link = "" then none
      else some { title := jsTrimString it.titleText, id := lastSegment link }

/-- `[title.english, title.romaji, ...synonyms].filter(Boolean)`. -/
def buildSearchTerms (m : MediaData) : List String :=
  ((m.english.toList ++ m.romaji.toList) ++ m.synonyms).filter (fun t => t != "")

/-- `term.split(':')[0].trim()`. -/
def titleFirstPart (t : String) : String :=
  jsTrimString ((jsSplit t ':').headD "")

/-- `allSearchTerms` of the controller: the search terms followed by those
first parts that are non-empty, contain a space, and are not already terms. -/
def buildAllSearchTerms (m : MediaData) : List String :=
  let searchTerms := buildSearchTerms m
  let titleFirstParts := (searchTerms.map titleFirstPart).filter
    (fun t => t != "" && t.data.contains ' ' && !(searchTerms.contains t))
  searchTerms ++ titleFirstParts

/-- The `for (const term of allSearchTerms)` loop of the controller's
`findInternalIdFromAnilist`: skip empty terms; a failed search is caught
per-term and the loop continues; on a non-empty result set, return the first
reasonable match, else fall back to the first extracted candidate (caching
either), else continue.  Returns (result, cache, network-call log). -/
def searchLoop (oracle : String → Fetch (List RawItem)) (cache : Cache)
    (anilistId : String) : List String → Option String × Cache × List NetCall
  | [] => (none, cache, [])
  | term :: rest =>
    if term = "" then searchLoop oracle cache anilistId rest
    else
      match oracle term with
      | Fetch.fail =>
        let r := searchLoop oracle cache anilistId rest
        (r.1, r.2.1, NetCall.search term :: r.2.2)
      | Fetch.ok items =>
        if items.length > 0 then
          let foundAnimes := extractFoundAnimes items
          match List.find? (fun a => isReasonableMatch a.title term) foundAnimes with
          | some a => (some a.id, cacheInsert cache anilistId a.id, [NetCall.search term])
          | none =>
            match foundAnimes with
            | a0 :: _ => (some a0.id, cacheInsert cache anilistId a0.id, [NetCall.search term])
            | [] =>
              let r := searchLoop oracle cache anilistId rest
              (r.1, r.2.1, NetCall.search term :: r.2.2)
        else
          let r := searchLoop oracle cache anilistId rest
          (r.1, r.2.1, NetCall.search term :: r.2.2)

/-- `findInternalIdFromAnilist(anilistId)` of `episodeList.controller.js`:
AniList metadata fetch, then the per-term search loop. -/
def findInternalIdFromAnilist (meta : MetaOutcome) (oracle : String → Fetch (List RawItem))
    (cache : Cache) (anilistId : String) : Option String × Cache × List NetCall :=
  match meta with
  | MetaOutcome.fail => (none, cache, [NetCall.metaFetch anilistId])
  | MetaOutcome.noMedia => (none, cache, [NetCall.metaFetch anilistId])
  | MetaOutcome.ok m =>
    let r := searchLoop oracle cache anilistId (buildAllSearchTerms m)
    (r.1, r.2.1, NetCall.metaFetch anilistId :: r.2.2)

/-- `ANILIST_ID_MAPPING` of `episodeList.controller.js`. -/
def ANILIST_ID_MAPPING : List (String × String) :=
  [("21", "one-piece-100"), ("1", "cowboy-bebop"), ("5", "naruto"),
   ("16498", "attack-on-titan"), ("101922", "demon-slayer-kimetsu-no-yaiba"),
   ("97938", "my-hero-academia"), ("1535", "death-note"),
   ("113415", "jujutsu-kaisen"), ("20", "naruto-shippuden"),
   ("15125", "tokyo-ghoul"), ("99423", "dr-stone"), ("98707", "black-clover"),
   ("11757", "sword-art-online"), ("124", "fushigi-yuugi-eikoden")]

/-- Steps 1–3 of `getEpisodesByAnilistId` (`episodeList.controller.js`):
static mapping, then cache, then dynamic resolution. -/
def resolveAnilistId (meta : MetaOutcome) (oracle : String → Fetch (List RawItem))
    (cache : Cache) (id : String) : Option String × Cache × List NetCall :=
  match cacheLookup ANILIST_ID_MAPPING id with
  | some v => (some v, cache, [])
  | none =>
    match cacheLookup cache id with
    | some v => (some v, cache, [])
    | none => findInternalIdFromAnilist meta oracle cache id

/-- The search loop of part_000's `getInternalIdFromAnilistId`.  There is no
per-term `try`/`catch`: a failed search throws to the function-level catch,
which returns `null` — later terms are never tried. -/
def p000Loop (oracle : String → Fetch (List RawItem)) (cache : Cache)
    (anilistId : String) : List String → Option String × Cache × List NetCall
  | [] => (none, cache, [])
  | term :: rest =>
    match oracle term with
    | Fetch.fail => (none, cache, [NetCall.search term])
    | Fetch.ok items =>
      if items.length > 0 then
        let foundAnimes := extractFoundAnimes items
        match List.find? (fun a => isReasonableMatch a.title term) foundAnimes with
        | some a => (some a.id, cacheInsert cache anilistId a.id, [NetCall.search term])
        | none =>
          match foundAnimes with
          | a0 :: _ => (some a0.id, cacheInsert cache anilistId a0.id, [NetCall.search term])
          | [] =>
            let r := p000Loop oracle cache anilistId rest
            (r.1, r.2.1, NetCall.search term :: r.2.2)
      else
        let r := p000Loop oracle cache anilistId rest
        (r.1, r.2.1, NetCall.search term :: r.2.2)

/-- `getInternalIdFromAnilistId(anilistId)` of part_000 (first variant):
cache check, AniList metadata fetch, then the un-guarded search loop over
`[english, romaji, ...synonyms].filter(Boolean)`. -/
def p000_getInternalIdFromAnilistId (meta : MetaOutcome)
    (oracle : String → Fetch (List RawItem)) (cache : Cache)
    (anilistId : String) : Option String × Cache × List NetCall :=
  match cacheLookup cache anilistId with
  | some v => (some v, cache, [])
  | none =>
    match meta with
    | MetaOutcome.fail => (none, cache, [NetCall.metaFetch anilistId])
    | MetaOutcome.noMedia => (none, cache, [NetCall.metaFetch anilistId])
    | MetaOutcome.ok m =>
      let r := p000Loop oracle cache anilistId (buildSearchTerms m)
      (r.1, r.2.1, NetCall.metaFetch anilistId :: r.2.2)

example :
    buildAllSearchTerms { english := some "One Piece Movie 14: Stampede",
                          romaji := none, synonyms := [] }
      = ["One Piece Movie 14: Stampede", "One Piece Movie 14"] := by decide

/-! ## Catalog search adapter of part_001 (`findInternalIdByTitleSearch`)
and its resolver (`findInternalIdFromAnilist` of part_001). -/

/-- An entry of `searchResults` in part_001's `findInternalIdByTitleSearch`. -/
structure SearchResult where
  title : String
  internalId : String
  similarity : ℚ
deriving DecidableEq

/-- Model of matching the regex `/\/anime\/([^/]+)/` against a URL and taking
the first capture group: scan left to right for `"/anime/"` followed by at
least one non-`'/'` character, returning the maximal such run. -/
def animeSlugFrom : List Char → Option String
  | [] => none
  | c :: rest =>
    if listStartsWith (c :: rest) ("/anime/".data) then
      if ((c :: rest).drop 7).takeWhile (fun ch => ch != '/') = [] then animeSlugFrom rest
      else some (String.mk (((c :: rest).drop 7).takeWhile (fun ch => ch != '/')))
    else animeSlugFrom rest

/-- The `$('.film_list-wrap .flw-item').each` extraction of part_001: an item
is kept iff its link matches `/\/anime\/([^/]+)/` (so `internalId` is
non-empty) and its trimmed title is truthy (non-empty); each kept item is
scored with `calculateSimilarity(title, resultTitle)`. -/
def extractSearchResults (queryTitle : String) (items : List RawItem) : List SearchResult :=
  items.filterMap fun it =>
    let resultTitle := jsTrimString it.titleText
    let internalId : Option String :=
      match it.href with
      | none => none
      | some url => animeSlugFrom url.data
    match internalId with
    | none => none
    | some iid =>
      if resultTitle = "" then none
      else some { title := resultTitle, internalId := iid,
                  similarity := calculateSimilarity queryTitle it.titleText }

/-- Stable insertion into a list sorted by descending similarity
(model of `searchResults.sort((a, b) => b.similarity - a.similarity)`). -/
def insertDescBySim (x : SearchResult) : List SearchResult → List SearchResult
  | [] => [x]
  | y :: ys => if x.similarity ≤ y.similarity then y :: insertDescBySim x ys
               else x :: y :: ys

/-- Sort by descending similarity. -/
def sortDescBySim : List SearchResult → List SearchResult
  | [] => []
  | x :: xs => insertDescBySim x (sortDescBySim xs)

/-- The `for (const title of validTitles)` loop of part_001's
`findInternalIdByTitleSearch`: search, extract, sort by similarity, and accept
the top result iff its similarity exceeds 0.7; otherwise try the next title.
There is no per-title catch: a failed search throws to the function-level
catch, which returns `null`. -/
def ftsLoop (oracle : String → Fetch (List RawItem)) : List String → Option String
  | [] => none
  | title :: rest =>
    match oracle (jsTrimString title) with
    | Fetch.fail => none
    | Fetch.ok items =>
      let sorted := sortDescBySim (extractSearchResults title items)
      match sorted with
      | [] => ftsLoop oracle rest
      | top :: _ =>
        if top.similarity > mkRat 7 10 then some top.internalId
        else ftsLoop oracle rest

/-- `findInternalIdByTitleSearch(titleVariations)` of part_001.  The oracle is
keyed by the trimmed title (`encodeURIComponent` is abstracted away as an
injective encoding of the search URL). -/
def findInternalIdByTitleSearch (oracle : String → Fetch (List RawItem))
    (titleVariations : List String) : Option String :=
  let validTitles := titleVariations.filter (fun t => t != "")
  ftsLoop oracle validTitles

/-- The AniList `Media` fields used by part_001 (`title.english`,
`title.romaji`, `title.userPreferred`, `synonyms`). -/
structure P001Media where
  english : Option String
  romaji : Option String
  userPreferred : Option String
  synonyms : List String
deriving DecidableEq

/-- `titleVariations` of part_001's `findInternalIdFromAnilist` (step 4). -/
def p001TitleVariations (m : P001Media) : List String :=
  ((m.english.toList ++ m.romaji.toList ++ m.userPreferred.toList)
    ++ m.synonyms).filter (fun t => t != "")

/-- `ANILIST_ID_MAPPING` of part_001. -/
def P001_ANILIST_ID_MAPPING : List (String × String) :=
  [("21", "one-piece-100"), ("1", "cowboy-bebop"), ("5", "naruto"),
   ("16498", "attack-on-titan"), ("101922", "demon-slayer-kimetsu-no-yaiba"),
   ("97938", "my-hero-academia"), ("1535", "death-note"),
   ("113415", "jujutsu-kaisen"), ("20", "naruto-shippuden"),
   ("9253", "steins-gate"), ("11061", "hunter-x-hunter-2011"),
   ("30276", "one-punch-man"), ("124", "fushigi-yuugi-eikoden")]

/-- `findInternalIdFromAnilist(anilistId)` of part_001: static table, cache,
AniList info (`getAniListInfo` returns `none` on failure or missing media),
title search, then cache the mapping iff an id was found. -/
def p001_findInternalIdFromAnilist (meta : Option P001Media)
    (oracle : String → Fetch (List RawItem)) (cache : Cache)
    (anilistId : String) : Option String × Cache :=
  match cacheLookup P001_ANILIST_ID_MAPPING anilistId with
  | some v => (some v, cache)
  | none =>
    match cacheLookup cache anilistId with
    | some v => (some v, cache)
    | none =>
      match meta with
      | none => (none, cache)
      | some m =>
        match findInternalIdByTitleSearch oracle (p001TitleVariations m) with
        | some iid => (some iid, cacheInsert cache anilistId iid)
        | none => (none, cache)

/-! ## Episode extractor (`extractEpisodesList` of
`episodeList.extractor.js`). -/

/-- One `.ss-list a` anchor of the episode-listing fragment, as read by the
extractor: `data-number`, `href`, `title` attributes, the `.ep-name`
`data-jname`, and the `ssl-item-filler` class. -/
structure EpAnchor where
  dataNumber : Option Nat
  href : Option String
  titleAttr : Option String
  jname : Option String
  fillerClass : Bool
deriving DecidableEq

/-- The `ajax/v2/episode/list` response: `html` is `none` when the field is
absent or falsy (empty), otherwise the anchors parsed from the fragment
(`some []` is a present fragment with no items). -/
structure EpListResponse where
  html : Option (List EpAnchor)
deriving DecidableEq

/-- The show-detail page, reduced to what the extractor reads from it: the
`anilist_id` recovered from the `#syncData` JSON, or `none` when the script
is absent or fails to parse. -/
structure ShowInfo where
  anilist_id : Option Nat
deriving DecidableEq

/-- One episode object pushed by the extractor.  `episode_no` is
`Number($(el).attr("data-number"))`, with `none` modelling `NaN`. -/
structure EpisodeRecord where
  episode_no : Option Nat
  id : Option String
  title : Option String
  japanese_title : Option String
  filler : Bool
deriving DecidableEq

/-- The `res` object built by the extractor on success. -/
structure EpisodeCollection where
  totalEpisodes : Nat
  episodes : List EpisodeRecord
  anilistId : Option Nat
deriving DecidableEq

/-- The extractor's return value: the empty array `[]` (returned when the
`html` field is falsy or any fetch throws) or the collection object. -/
inductive ExtractResult where
  | emptyArr
  | collection (c : EpisodeCollection)
deriving DecidableEq

/-- `anilistId || null` followed by `if (anilistId)`: JS `0` is falsy. -/
def jsTruthyNat : Option Nat → Option Nat
  | none => none
  | some n => if n = 0 then none else some n

/-- `href?.split("/")?.pop() || null` / `title?.trim() || null`. -/
def jsNonEmptyOrNull (s : Option String) : Option String :=
  match s with
  | none => none
  | some v => if v = "" then none else some v

/-- One `EpisodeRecord` from one anchor. -/
def mkEpisodeRecord (el : EpAnchor) : EpisodeRecord :=
  { episode_no := el.dataNumber
    id := jsNonEmptyOrNull (el.href.map lastSegment)
    title := jsNonEmptyOrNull (el.titleAttr.map jsTrimString)
    japanese_title := el.jname
    filler := el.fillerClass }

/-- `extractEpisodesList(id)`.  The two fetches (episode-list endpoint, show
page) are supplied as outcomes; any `Fetch.fail` throws to the catch, which
returns `[]`.  On success `totalEpisodes` is the anchor count and `episodes`
has one record per anchor. -/
def extractEpisodesList (id : String) (epList : Fetch EpListResponse)
    (showInfo : Fetch ShowInfo) : ExtractResult :=
  let _showId := lastSegment id
  match epList with
  | Fetch.fail => ExtractResult.emptyArr
  | Fetch.ok resp =>
    match resp.html with
    | none => ExtractResult.emptyArr
    | some anchors =>
      match showInfo with
      | Fetch.fail => ExtractResult.emptyArr
      | Fetch.ok info =>
        ExtractResult.collection
          { totalEpisodes := anchors.length
            episodes := anchors.map mkEpisodeRecord
            anilistId := jsTruthyNat info.anilist_id }

example :
    extractSearchResults "Foo" [{ titleText := "Foo", href := some "/anime/foo" }]
      = [{ title := "Foo", internalId := "foo", similarity := 1 }] := by decide

/-! ## Claims -/

/-- C1: for every externalId that is a key in the static mapping table,
`resolve` returns the statically mapped internal id immediately: for an
arbitrary cache (never consulted — the result is independent of its
contents), arbitrary metadata and search oracles, the result is the static
value, the cache is returned unchanged, and the network-call log is empty. -/
theorem C1_static_mapping_short_circuits (id v : String)
    (h : cacheLookup ANILIST_ID_MAPPING id = some v) :
    ∀ (meta : MetaOutcome) (oracle : String → Fetch (List RawItem)) (cache : Cache),
      resolveAnilistId meta oracle cache id = (some v, cache, []) := by
  intro meta oracle cache
  unfold resolveAnilistId
  rw [h]

/-- C1 witness: `resolve("21")` returns `"one-piece-100"` with zero outbound
calls and an untouched cache, even when the cache holds a conflicting entry. -/
theorem C1_witness :
    resolveAnilistId MetaOutcome.fail (fun _ => Fetch.fail) [("21", "stale-entry")] "21"
      = (some "one-piece-100", [("21", "stale-entry")], []) :=
  C1_static_mapping_short_circuits "21" "one-piece-100" (by decide)
    MetaOutcome.fail (fun _ => Fetch.fail) [("21", "stale-entry")]

/-- C2: every `EpisodeCollection` returned by `extractEpisodesList` satisfies
`totalEpisodes = episodes.length`. -/
theorem C2_totalEpisodes_eq_length (id : String) (epList : Fetch EpListResponse)
    (showInfo : Fetch ShowInfo) (c : EpisodeCollection)
    (h : extractEpisodesList id epList showInfo = ExtractResult.collection c) :
    c.totalEpisodes = c.episodes.length := by
  cases epList with
  | fail => simp [extractEpisodesList] at h
  | ok resp =>
    cases hh : resp.html with
    | none => simp [extractEpisodesList, hh] at h
    | some anchors =>
      cases showInfo with
      | fail => simp [extractEpisodesList, hh] at h
      | ok info =>
        simp [extractEpisodesList, hh] at h
        rw [← h]
        simp

/-- C2 witness: a one-anchor fragment yields a collection with
`totalEpisodes = 1 = episodes.length`. -/
theorem C2_witness :
    ({ totalEpisodes := 1,
       episodes := [mkEpisodeRecord
         { dataNumber := some 1, href := some "/watch/ep-1",
           titleAttr := some "Ep 1", jname := none, fillerClass := false }],
       anilistId := none } : EpisodeCollection).totalEpisodes
      = ({ totalEpisodes := 1,
           episodes := [mkEpisodeRecord
             { dataNumber := some 1, href := some "/watch/ep-1",
               titleAttr := some "Ep 1", jname := none, fillerClass := false }],
           anilistId := none } : EpisodeCollection).episodes.length :=
  C2_totalEpisodes_eq_length "one-piece-100"
    (Fetch.ok { html := some [{ dataNumber := some 1, href := some "/watch/ep-1",
                                titleAttr := some "Ep 1", jname := none,
                                fillerClass := false }] })
    (Fetch.ok { anilist_id := none }) _ rfl

/-- C3 counterexample: with the episode-listing fragment absent
(`html` falsy), the extractor returns the empty array `[]`, which is not the
empty `EpisodeCollection` the claim promises. -/
theorem C3_counterexample :
    extractEpisodesList "one-piece-100" (Fetch.ok { html := none }) Fetch.fail
        = ExtractResult.emptyArr
      ∧ ExtractResult.emptyArr
        ≠ ExtractResult.collection { totalEpisodes := 0, episodes := [], anilistId := none } := by
  exact ⟨rfl, by simp⟩

/-- C3 amended: when the episode-listing fragment is absent the extractor
returns the empty array (a non-error sentinel, but not an
`EpisodeCollection`); the empty `EpisodeCollection` with `totalEpisodes = 0`
and `episodes = []` is returned when the fragment is present but contains no
items. -/
theorem C3_amended_empty_fragment (id : String) (showInfo : Fetch ShowInfo) (info : ShowInfo) :
    extractEpisodesList id (Fetch.ok { html := none }) showInfo = ExtractResult.emptyArr
    ∧ extractEpisodesList id (Fetch.ok { html := some [] }) (Fetch.ok info)
        = ExtractResult.collection
            { totalEpisodes := 0, episodes := [], anilistId := jsTruthyNat info.anilist_id } := by
  constructor
  · cases showInfo <;> rfl
  · rfl

/-- `mkRat 7 10` is the rational 0.7. -/
theorem mkRat_seven_tenths : (mkRat 7 10 : ℚ) = 7/10 := by
  rw [Rat.mkRat_eq_div]; norm_num

/-- An empty normalized maximum forces both normalized titles to be empty. -/
theorem max_len_zero_eq (s t : String) (h : max s.length t.length = 0) : s = t := by
  have h1 : s.length = 0 :=
    Nat.eq_zero_of_le_zero (Nat.le_trans (Nat.le_max_left _ _) (Nat.le_of_eq h))
  have h2 : t.length = 0 :=
    Nat.eq_zero_of_le_zero (Nat.le_trans (Nat.le_max_right _ _) (Nat.le_of_eq h))
  have hs : s.data = [] := List.eq_nil_of_length_eq_zero h1
  have ht : t.data = [] := List.eq_nil_of_length_eq_zero h2
  cases s with
  | mk ds =>
    cases t with
    | mk dt =>
      have hds : ds = [] := hs
      have hdt : dt = [] := ht
      rw [hds, hdt]

/-- C6: in the edit-distance branch (normalized titles unequal, neither a
substring of the other), `isReasonableMatch` accepts iff the similarity score
strictly exceeds 0.7, and a score of exactly 0.7 is rejected. -/
theorem C6_threshold_strict (t1 t2 : String)
    (h1 : t1 ≠ "") (h2 : t2 ≠ "")
    (hne : normalizeTitle t1 ≠ normalizeTitle t2)
    (hc1 : listContains (normalizeTitle t1).data (normalizeTitle t2).data = false)
    (hc2 : listContains (normalizeTitle t2).data (normalizeTitle t1).data = false) :
    (isReasonableMatch t1 t2 = true ↔ similarityScore t1 t2 > 7/10)
    ∧ (similarityScore t1 t2 = 7/10 → isReasonableMatch t1 t2 = false) := by
  have hL : max (normalizeTitle t1).length (normalizeTitle t2).length ≠ 0 := by
    intro h0
    exact hne (max_len_zero_eq _ _ h0)
  have hmain : isReasonableMatch t1 t2
      = decide ((mkRat
          (((max (normalizeTitle t1).length (normalizeTitle t2).length : Nat) : Int)
            - (levenshteinDistance (normalizeTitle t1) (normalizeTitle t2) : Int))
          (max (normalizeTitle t1).length (normalizeTitle t2).length) : ℚ)
          > mkRat 7 10) := by
    unfold isReasonableMatch
    simp [h1, h2, hne, hc1, hc2, hL]
  have hsc : similarityScore t1 t2
      = mkRat
          (((max (normalizeTitle t1).length (normalizeTitle t2).length : Nat) : Int)
            - (levenshteinDistance (normalizeTitle t1) (normalizeTitle t2) : Int))
          (max (normalizeTitle t1).length (normalizeTitle t2).length) := by
    unfold similarityScore
    simp [hL]
  constructor
  · rw [hmain, hsc, mkRat_seven_tenths, decide_eq_true_iff]
  · intro heq
    rw [hmain]
    rw [hsc] at heq
    rw [decide_eq_false_iff_not]
    rw [heq, mkRat_seven_tenths]
    exact lt_irrefl _

/-- C6 witness: `"aaaaaaabbb"` vs `"aaaaaaaccc"` lies in the edit-distance
branch with score exactly 7/10, so the iff and the exact-threshold rejection
hold there. -/
theorem C6_witness :
    (isReasonableMatch "aaaaaaabbb" "aaaaaaaccc" = true
        ↔ similarityScore "aaaaaaabbb" "aaaaaaaccc" > 7/10)
    ∧ (similarityScore "aaaaaaabbb" "aaaaaaaccc" = 7/10
        → isReasonableMatch "aaaaaaabbb" "aaaaaaaccc" = false) :=
  C6_threshold_strict "aaaaaaabbb" "aaaaaaaccc"
    (by decide) (by decide) (by decide) (by decide) (by decide)

example : similarityScore "aaaaaaabbb" "aaaaaaaccc" = mkRat 7 10 := by decide

example : isReasonableMatch "aaaaaaabbb" "aaaaaaaccc" = false := by decide

example : isReasonableMatch "aaaaaaaabb" "aaaaaaaacc" = true := by decide

/-- `mkRat (9a) (10b)` is `(a/b)·0.9`. -/
theorem mkRat_nine_tenths (a b : Nat) :
    (mkRat (9 * (a : Int)) (10 * b) : ℚ) = ((a : ℚ) / (b : ℚ)) * (9/10) := by
  rw [Rat.mkRat_eq_div]
  push_cast
  rw [div_mul_div_comm]
  ring_nf

/-- C7 counterexample: `"one piece"` vs `"one"` have unequal normalized forms
with a substring relation, yet the score is 3/10, not 0.9. -/
theorem C7_counterexample :
    cleanseTitle "one piece" ≠ cleanseTitle "one"
    ∧ listContains (cleanseTitle "one piece").data (cleanseTitle "one").data = true
    ∧ calculateSimilarity "one piece" "one" = mkRat 3 10
    ∧ calculateSimilarity "one piece" "one" ≠ 9/10 := by
  refine ⟨by decide, by decide, by decide, ?_⟩
  have h : calculateSimilarity "one piece" "one" = mkRat 3 10 := by decide
  rw [h, Rat.mkRat_eq_div]
  norm_num

/-- C7 amended: in the substring branch (normalized forms unequal, one a
substring of the other) the score is `(shorter/longer) · 0.9`, not 0.9. -/
theorem C7_amended_substring_score (s1 s2 : String)
    (h1 : s1 ≠ "") (h2 : s2 ≠ "")
    (hne : cleanseTitle s1 ≠ cleanseTitle s2)
    (hsub : listContains (cleanseTitle s1).data (cleanseTitle s2).data = true
            ∨ listContains (cleanseTitle s2).data (cleanseTitle s1).data = true) :
    calculateSimilarity s1 s2
      = (((min (cleanseTitle s1).length (cleanseTitle s2).length : Nat) : ℚ)
          / ((max (cleanseTitle s1).length (cleanseTitle s2).length : Nat) : ℚ)) * (9/10) := by
  have hb : calculateSimilarity s1 s2
      = mkRat (9 * ((min (cleanseTitle s1).length (cleanseTitle s2).length : Nat) : Int))
              (10 * max (cleanseTitle s1).length (cleanseTitle s2).length) := by
    unfold calculateSimilarity
    rcases hsub with hs | hs <;> simp [h1, h2, hne, hs]
  rw [hb, mkRat_nine_tenths]

/-- C7 amended witness at `"one piece"` vs `"one"`. -/
theorem C7_witness :
    calculateSimilarity "one piece" "one"
      = (((min (cleanseTitle "one piece").length (cleanseTitle "one").length : Nat) : ℚ)
          / ((max (cleanseTitle "one piece").length (cleanseTitle "one").length : Nat) : ℚ)) * (9/10) :=
  C7_amended_substring_score "one piece" "one" (by decide) (by decide) (by decide)
    (Or.inl (by decide))

/-- A slug captured by `/\/anime\/([^/]+)/` is never empty. -/
theorem animeSlugFrom_ne_empty : ∀ (l : List Char) (s : String),
    animeSlugFrom l = some s → s ≠ ""
  | [], s, h => by simp [animeSlugFrom] at h
  | c :: rest, s, h => by
    unfold animeSlugFrom at h
    split at h
    · split at h
      · exact animeSlugFrom_ne_empty rest s h
      · rename_i hseg
        have hs := Option.some.inj h
        intro he
        rw [← hs] at he
        exact hseg (congrArg String.data he)
    · exact animeSlugFrom_ne_empty rest s h

/-- C8 counterexample: the controller's extraction keeps an item whose
display title is empty (only the link is required), and the resulting id is
returned and cached via the first-result fallback — so a cached id can come
from a document with no structurally valid (title and id both non-empty)
result item. -/
theorem C8_counterexample :
    extractFoundAnimes [{ titleText := "", href := some "/watch/foo" }]
        = [{ title := "", id := "foo" }]
    ∧ searchLoop
        (fun t => if t = "Terma"
                  then Fetch.ok [{ titleText := "", href := some "/watch/foo" }]
                  else Fetch.fail)
        [] "9" ["Terma"]
        = (some "foo", [("9", "foo")], [NetCall.search "Terma"]) :=
  ⟨by decide, by decide⟩

/-- C8 amended: every `SearchResult` produced by part_001's
`findInternalIdByTitleSearch` extraction has a non-empty title and a
non-empty internal id (items missing either are dropped there); the
controller's variant, by contrast, drops only items without a link. -/
theorem C8_amended_valid_candidates (q : String) (items : List RawItem) (r : SearchResult)
    (hr : r ∈ extractSearchResults q items) : r.title ≠ "" ∧ r.internalId ≠ "" := by
  unfold extractSearchResults at hr
  obtain ⟨it, _, hf⟩ := List.mem_filterMap.mp hr
  simp only at hf
  split at hf
  · exact absurd hf (by simp)
  · rename_i iid hiid
    split at hf
    · exact absurd hf (by simp)
    · rename_i htitle
      obtain rfl := Option.some.inj hf
      refine ⟨htitle, ?_⟩
      cases hhref : it.href with
      | none => rw [hhref] at hiid; simp at hiid
      | some url =>
        rw [hhref] at hiid
        exact animeSlugFrom_ne_empty url.data iid hiid

/-- C8 amended witness: a well-formed item yields a candidate with non-empty
title and id. -/
theorem C8_witness :
    ({ title := "Foo", internalId := "foo", similarity := 1 } : SearchResult).title ≠ ""
    ∧ ({ title := "Foo", internalId := "foo", similarity := 1 } : SearchResult).internalId ≠ "" :=
  C8_amended_valid_candidates "Foo" [{ titleText := "Foo", href := some "/anime/foo" }]
    { title := "Foo", internalId := "foo", similarity := 1 } (by decide)

/-- A non-alphanumeric character is neither upper, lower, nor a digit. -/
theorem not_alnum_parts (c : Char) (h : c.isAlphanum = false) :
    c.isUpper = false ∧ c.isLower = false ∧ c.isDigit = false := by
  unfold Char.isAlphanum Char.isAlpha at h
  rcases Bool.or_eq_false_iff.mp h with ⟨h1, h2⟩
  rcases Bool.or_eq_false_iff.mp h1 with ⟨h3, h4⟩
  exact ⟨h3, h4, h2⟩

/-- Lower-casing fixes every non-alphanumeric character. -/
theorem jsLowerChar_eq_self (c : Char) (h : c.isAlphanum = false) :
    jsLowerChar c = c := by
  unfold jsLowerChar
  rw [(not_alnum_parts c h).1]
  rfl

/-- A title of non-alphanumeric characters normalizes to the empty string. -/
theorem normalizeTitle_eq_empty (t : String)
    (ha : ∀ c ∈ t.data, c.isAlphanum = false) : normalizeTitle t = "" := by
  unfold normalizeTitle jsToLower
  have hfil : (t.data.map jsLowerChar).filter (fun c => c.isLower || c.isDigit) = [] := by
    rw [List.filter_eq_nil_iff]
    intro a hmem
    obtain ⟨c, hc, rfl⟩ := List.mem_map.mp hmem
    have h := ha c hc
    obtain ⟨_, hl, hd⟩ := not_alnum_parts c h
    rw [jsLowerChar_eq_self c h]
    simp [hl, hd]
  show String.mk ((t.data.map jsLowerChar).filter (fun c => c.isLower || c.isDigit)) = ""
  rw [hfil]

/-- Collapsing an all-whitespace list yields `[]` or a single space. -/
theorem collapseRuns_all_space : ∀ (l : List Char), (∀ c ∈ l, jsSpace c = true) →
    collapseRuns l = [] ∨ collapseRuns l = [' ']
  | [], _ => Or.inl rfl
  | [c], h => by
    right
    simp [collapseRuns, h c (by simp)]
  | c1 :: c2 :: rest, h => by
    have h1 : jsSpace c1 = true := h c1 (by simp)
    have h2 : jsSpace c2 = true := h c2 (by simp)
    have ih := collapseRuns_all_space (c2 :: rest)
      (fun c hc => h c (List.mem_cons_of_mem c1 hc))
    simpa [collapseRuns, h1, h2] using ih

/-- A non-empty title of non-alphanumeric, non-underscore characters cleanses
to the empty string. -/
theorem cleanseTitle_eq_empty (t : String) (h1 : t ≠ "")
    (ha : ∀ c ∈ t.data, c.isAlphanum = false ∧ c ≠ '_') :
    cleanseTitle t = "" := by
  unfold cleanseTitle
  rw [if_neg h1]
  have hfil : ∀ c ∈ ((jsToLower t).data.filter (fun c => isWordChar c || jsSpace c)),
      jsSpace c = true := by
    intro c hc
    obtain ⟨hmem, hp⟩ := List.mem_filter.mp hc
    have hmem2 : c ∈ t.data.map jsLowerChar := hmem
    obtain ⟨c0, hc0, hcc⟩ := List.mem_map.mp hmem2
    have hal := (ha c0 hc0).1
    have hne := (ha c0 hc0).2
    rw [← hcc, jsLowerChar_eq_self c0 hal] at hp ⊢
    have hw : isWordChar c0 = false := by
      unfold isWordChar
      simp [hal, hne]
    simpa [hw] using hp
  rcases collapseRuns_all_space _ hfil with hcr | hcr
  · rw [hcr]; rfl
  · rw [hcr]; rfl

/-- C10 counterexample: `"_"` and `"???"` are non-empty titles with no
alphanumeric characters, `isReasonableMatch` accepts them, but
`calculateSimilarity` scores them 0, not 1 — an underscore survives
`cleanseTitle` (`\w` keeps it), so the two titles do not both cleanse to the
empty string. -/
theorem C10_counterexample :
    ("_" : String) ≠ "" ∧ ("???" : String) ≠ ""
    ∧ ("_" : String).data.all (fun c => !c.isAlphanum) = true
    ∧ ("???" : String).data.all (fun c => !c.isAlphanum) = true
    ∧ cleanseTitle "_" = "_"
    ∧ isReasonableMatch "_" "???" = true
    ∧ calculateSimilarity "_" "???" = 0
    ∧ (0 : ℚ) ≠ 1 := by
  refine ⟨by decide, by decide, by decide, by decide, by decide, by decide, by decide, ?_⟩
  norm_num

/-- C10 amended: for non-empty titles of non-alphanumeric ASCII characters
other than underscore, both normalized forms are empty, `isReasonableMatch`
accepts via the exact-normalized-equality rule and `calculateSimilarity`
returns 1.  (The ASCII bound reflects the model of `toLowerCase`; the
underscore exclusion is forced by the counterexample, since `\w` keeps
underscores in `cleanseTitle`.) -/
theorem C10_amended_no_alnum_match (t1 t2 : String)
    (h1 : t1 ≠ "") (h2 : t2 ≠ "")
    (ha1 : ∀ c ∈ t1.data, c.isAlphanum = false ∧ c ≠ '_' ∧ c.toNat < 128)
    (ha2 : ∀ c ∈ t2.data, c.isAlphanum = false ∧ c ≠ '_' ∧ c.toNat < 128) :
    isReasonableMatch t1 t2 = true ∧ calculateSimilarity t1 t2 = 1 := by
  have hn1 : normalizeTitle t1 = "" := normalizeTitle_eq_empty t1 (fun c hc => (ha1 c hc).1)
  have hn2 : normalizeTitle t2 = "" := normalizeTitle_eq_empty t2 (fun c hc => (ha2 c hc).1)
  have hcle1 : cleanseTitle t1 = "" :=
    cleanseTitle_eq_empty t1 h1 (fun c hc => ⟨(ha1 c hc).1, (ha1 c hc).2.1⟩)
  have hcle2 : cleanseTitle t2 = "" :=
    cleanseTitle_eq_empty t2 h2 (fun c hc => ⟨(ha2 c hc).1, (ha2 c hc).2.1⟩)
  constructor
  · unfold isReasonableMatch
    rw [if_neg (by push_neg; exact ⟨h1, h2⟩)]
    simp [hn1, hn2]
  · unfold calculateSimilarity
    rw [if_neg (by push_neg; exact ⟨h1, h2⟩)]
    simp [hcle1, hcle2]

/-- C10 amended witness at `"!!"` vs `"??"`. -/
theorem C10_witness :
    isReasonableMatch "!!" "??" = true ∧ calculateSimilarity "!!" "??" = 1 :=
  C10_amended_no_alnum_match "!!" "??" (by decide) (by decide) (by decide) (by decide)

/-! ## C4/C5: ordering and failure semantics of the dynamic search loops. -/

/-- Concrete oracles for the loop-order counterexamples: the first term finds
one unrelated result, the second term would find an exact match. -/
def oracleC4 : String → Fetch (List RawItem) := fun t =>
  if t = "Alpha Beta" then
    Fetch.ok [{ titleText := "Zzzz Qqqq", href := some "/watch/zzzz-123" }]
  else if t = "Gamma Delta" then
    Fetch.ok [{ titleText := "Gamma Delta", href := some "/watch/gamma-delta" }]
  else Fetch.fail

/-- C4 counterexample: with query terms `["Alpha Beta", "Gamma Delta"]`, the
first term returns one unrelated candidate and the second term would return
an exact match accepted by the matcher — yet the resolver returns the first
term's first candidate (the log shows the second term is never searched), so
the fall-back fires even though a query term of the candidate list yields an
accepted match. -/
theorem C4_counterexample :
    findInternalIdFromAnilist
        (MetaOutcome.ok { english := some "Alpha Beta", romaji := some "Gamma Delta",
                          synonyms := [] })
        oracleC4 [] "77"
      = (some "zzzz-123", [("77", "zzzz-123")],
         [NetCall.metaFetch "77", NetCall.search "Alpha Beta"])
    ∧ "Gamma Delta" ∈ buildAllSearchTerms
        { english := some "Alpha Beta", romaji := some "Gamma Delta", synonyms := [] }
    ∧ oracleC4 "Gamma Delta"
        = Fetch.ok [{ titleText := "Gamma Delta", href := some "/watch/gamma-delta" }]
    ∧ isReasonableMatch "Gamma Delta" "Gamma Delta" = true :=
  ⟨by decide, by decide, by decide, by decide⟩

/-- A term the controller's search loop passes over without producing any
result: empty term, failed search, or no extractable candidates. -/
def termSkips (oracle : String → Fetch (List RawItem)) (t : String) : Prop :=
  t = "" ∨ oracle t = Fetch.fail
  ∨ ∃ items, oracle t = Fetch.ok items ∧ extractFoundAnimes items = []

/-- Network log of a run of passed-over terms (empty terms are skipped
without a search). -/
def skipLog (pre : List String) : List NetCall :=
  (pre.filter (fun t => t != "")).map NetCall.search

/-- C4 amended: a later query term is searched only if every earlier term was
passed over (empty, failed, or no extractable candidates); as soon as a term
yields a non-empty candidate list containing no acceptable match, the loop
immediately returns that list's first candidate — the remaining terms (here
arbitrary `rest`) are never searched, even if one of them would have yielded
an accepted match. -/
theorem C4_amended_eager_fallback
    (oracle : String → Fetch (List RawItem)) (cache : Cache) (id : String)
    (t : String) (rest : List String) (items : List RawItem)
    (a : FoundAnime) (as : List FoundAnime)
    (ht : t ≠ "") (horacle : oracle t = Fetch.ok items)
    (hextract : extractFoundAnimes items = a :: as)
    (hnomatch : ∀ x ∈ a :: as, isReasonableMatch x.title t = false) :
    ∀ (pre : List String), (∀ p ∈ pre, termSkips oracle p) →
      searchLoop oracle cache id (pre ++ t :: rest)
        = (some a.id, cacheInsert cache id a.id, skipLog pre ++ [NetCall.search t]) := by
  intro pre
  induction pre with
  | nil =>
    intro _
    have hlen : items.length > 0 := by
      cases items with
      | nil => simp [extractFoundAnimes] at hextract
      | cons i0 irest => simp
    have hfind : List.find? (fun x => isReasonableMatch x.title t)
        (a :: as) = none := by
      apply List.find?_eq_none.mpr
      intro x hx
      simp [hnomatch x hx]
    simp [searchLoop, ht, horacle, hlen, hextract, hfind, skipLog]
  | cons p pre2 ih =>
    intro hpre
    have hihr := ih (fun q hq => hpre q (List.mem_cons_of_mem p hq))
    have hp := hpre p (List.mem_cons_self p pre2)
    rcases hp with hpe | hpf | ⟨its, hok, hempty⟩
    · simp [searchLoop, hpe, skipLog, hihr]
    · by_cases hpe : p = ""
      · simp [searchLoop, hpe, skipLog, hihr]
      · simp [searchLoop, hpe, hpf, hihr, skipLog]
    · by_cases hpe : p = ""
      · simp [searchLoop, hpe, skipLog, hihr]
      · cases its with
        | nil => simp [searchLoop, hpe, hok, hihr, skipLog]
        | cons i0 irest =>
          have hfind0 : List.find? (fun x => isReasonableMatch x.title p)
              (extractFoundAnimes (i0 :: irest)) = none := by
            rw [hempty]; rfl
          simp [searchLoop, hpe, hok, hfind0, hempty, hihr, skipLog]

/-- Oracle for the C4 amended witness: an extra first term with an empty
result set in front of the counterexample's two terms. -/
def oracleC4W : String → Fetch (List RawItem) := fun t =>
  if t = "Nores" then Fetch.ok [] else oracleC4 t

/-- C4 amended witness: after one empty-result term, the first term with
candidates triggers the immediate fall-back; the later exact-match term stays
unsearched. -/
theorem C4_witness :
    searchLoop oracleC4W [] "77" (["Nores"] ++ "Alpha Beta" :: ["Gamma Delta"])
      = (some "zzzz-123", cacheInsert [] "77" "zzzz-123",
         skipLog ["Nores"] ++ [NetCall.search "Alpha Beta"]) :=
  C4_amended_eager_fallback oracleC4W [] "77" "Alpha Beta" ["Gamma Delta"]
    [{ titleText := "Zzzz Qqqq", href := some "/watch/zzzz-123" }]
    { title := "Zzzz Qqqq", id := "zzzz-123" } []
    (by decide) (by decide) (by decide) (by decide)
    ["Nores"]
    (by
      intro p hp
      have hpe : p = "Nores" := by
        cases hp with
        | head => rfl
        | tail _ h => cases h
      rw [hpe]
      exact Or.inr (Or.inr ⟨[], rfl, rfl⟩))

/-- Oracle for the C5 counterexample: the first term's search fails, the
second term's search would find an exact match. -/
def oracleC5 : String → Fetch (List RawItem) := fun t =>
  if t = "Gamma Delta" then
    Fetch.ok [{ titleText := "Gamma Delta", href := some "/watch/gamma-delta" }]
  else Fetch.fail

/-- C5 counterexample: in part_000's `getInternalIdFromAnilistId`, a failed
search for the first term aborts resolution with `null` — the log shows the
second term is never searched even though its search would have returned a
candidate accepted by the matcher, so the failure is not treated as "zero
results for that term, continue with the next term". -/
theorem C5_counterexample :
    p000_getInternalIdFromAnilistId
        (MetaOutcome.ok { english := some "Alpha Beta", romaji := some "Gamma Delta",
                          synonyms := [] })
        oracleC5 [] "88"
      = (none, [], [NetCall.metaFetch "88", NetCall.search "Alpha Beta"])
    ∧ "Gamma Delta" ∈ buildSearchTerms
        { english := some "Alpha Beta", romaji := some "Gamma Delta", synonyms := [] }
    ∧ oracleC5 "Gamma Delta"
        = Fetch.ok [{ titleText := "Gamma Delta", href := some "/watch/gamma-delta" }]
    ∧ isReasonableMatch "Gamma Delta" "Gamma Delta" = true :=
  ⟨by decide, by decide, by decide, by decide⟩

/-- C5 amended: the two variants differ.  In the controller's loop a failed
search of a term is caught locally and the loop continues with the remaining
terms (the term's search is merely logged); in part_000's loop the failure
propagates to the function-level catch, which aborts immediately with `null`
and an unchanged cache, leaving all later terms untried. -/
theorem C5_amended_failure_semantics
    (oracle : String → Fetch (List RawItem)) (cache : Cache) (id : String)
    (term : String) (rest : List String)
    (ht : term ≠ "") (hf : oracle term = Fetch.fail) :
    searchLoop oracle cache id (term :: rest)
      = ((searchLoop oracle cache id rest).1, (searchLoop oracle cache id rest).2.1,
         NetCall.search term :: (searchLoop oracle cache id rest).2.2)
    ∧ p000Loop oracle cache id (term :: rest) = (none, cache, [NetCall.search term]) := by
  constructor
  · simp [searchLoop, ht, hf]
  · simp [p000Loop, hf]

/-- C5 amended witness at the counterexample's oracle: the controller's loop
continues past the failing term (and then accepts the second term's match),
while part_000's loop aborts at it. -/
theorem C5_witness :
    (searchLoop oracleC5 [] "88" ("Alpha Beta" :: ["Gamma Delta"])
      = ((searchLoop oracleC5 [] "88" ["Gamma Delta"]).1,
         (searchLoop oracleC5 [] "88" ["Gamma Delta"]).2.1,
         NetCall.search "Alpha Beta" :: (searchLoop oracleC5 [] "88" ["Gamma Delta"]).2.2))
    ∧ p000Loop oracleC5 [] "88" ("Alpha Beta" :: ["Gamma Delta"])
      = (none, [], [NetCall.search "Alpha Beta"]) :=
  C5_amended_failure_semantics oracleC5 [] "88" "Alpha Beta" ["Gamma Delta"]
    (by decide) (by decide)

/-- Frame behavior of the controller's search loop: a `none` result leaves
the cache untouched, and any cache change is the insertion of the returned
id. -/
theorem searchLoop_frame (oracle : String → Fetch (List RawItem)) (cache : Cache)
    (id : String) : ∀ terms : List String,
    ((searchLoop oracle cache id terms).1 = none
      → (searchLoop oracle cache id terms).2.1 = cache)
    ∧ ((searchLoop oracle cache id terms).2.1 ≠ cache
      → ∃ v, (searchLoop oracle cache id terms).1 = some v
           ∧ (searchLoop oracle cache id terms).2.1 = cacheInsert cache id v) := by
  intro terms
  induction terms with
  | nil => exact ⟨fun _ => rfl, fun h => absurd rfl h⟩
  | cons term rest ih =>
    by_cases hte : term = ""
    · simpa [searchLoop, hte] using ih
    · cases ho : oracle term with
      | fail => simpa [searchLoop, hte, ho] using ih
      | ok items =>
        by_cases hlen : items.length > 0
        · cases hfind : List.find? (fun a => isReasonableMatch a.title term)
              (extractFoundAnimes items) with
          | some a =>
            constructor
            · intro h
              simp [searchLoop, hte, ho, hlen, hfind] at h
            · intro _
              exact ⟨a.id, by simp [searchLoop, hte, ho, hlen, hfind],
                     by simp [searchLoop, hte, ho, hlen, hfind]⟩
          | none =>
            cases hex : extractFoundAnimes items with
            | cons a0 t0 =>
              have hfind2 : List.find? (fun a => isReasonableMatch a.title term)
                  (a0 :: t0) = none := by rw [← hex]; exact hfind
              constructor
              · intro h
                simp [searchLoop, hte, ho, hlen, hfind2, hex] at h
              · intro _
                exact ⟨a0.id, by simp [searchLoop, hte, ho, hlen, hfind2, hex],
                       by simp [searchLoop, hte, ho, hlen, hfind2, hex]⟩
            | nil => simpa [searchLoop, hte, ho, hlen, hfind, hex] using ih
        · simpa [searchLoop, hte, ho, hlen] using ih

/-- C9: the controller's `resolve` and part_001's resolver mutate the cache
only on a successful dynamic resolution — any cache change implies a static
miss, a cache miss, and a returned id whose insertion is the entire change;
every `null` outcome (and hence every failure path) leaves the cache exactly
as it was.  Static-table and cache hits leave it unchanged by the same
contrapositive, and the static tables are immutable Lean constants. -/
theorem C9_cache_write_discipline
    (meta : MetaOutcome) (oracle : String → Fetch (List RawItem))
    (meta2 : Option P001Media) (oracle2 : String → Fetch (List RawItem))
    (cache : Cache) (id : String) :
    (((resolveAnilistId meta oracle cache id).2.1 ≠ cache)
      → cacheLookup ANILIST_ID_MAPPING id = none ∧ cacheLookup cache id = none
        ∧ ∃ v, (resolveAnilistId meta oracle cache id).1 = some v
             ∧ (resolveAnilistId meta oracle cache id).2.1 = cacheInsert cache id v)
    ∧ (((resolveAnilistId meta oracle cache id).1 = none)
      → (resolveAnilistId meta oracle cache id).2.1 = cache)
    ∧ (((p001_findInternalIdFromAnilist meta2 oracle2 cache id).2 ≠ cache)
      → cacheLookup P001_ANILIST_ID_MAPPING id = none ∧ cacheLookup cache id = none
        ∧ ∃ v, (p001_findInternalIdFromAnilist meta2 oracle2 cache id).1 = some v
             ∧ (p001_findInternalIdFromAnilist meta2 oracle2 cache id).2 = cacheInsert cache id v)
    ∧ (((p001_findInternalIdFromAnilist meta2 oracle2 cache id).1 = none)
      → (p001_findInternalIdFromAnilist meta2 oracle2 cache id).2 = cache) := by
  refine ⟨?_, ?_, ?_, ?_⟩
  · intro hne
    cases hstat : cacheLookup ANILIST_ID_MAPPING id with
    | some v => exact absurd (by simp [resolveAnilistId, hstat]) hne
    | none =>
      cases hcache : cacheLookup cache id with
      | some v => exact absurd (by simp [resolveAnilistId, hstat, hcache]) hne
      | none =>
        refine ⟨rfl, rfl, ?_⟩
        have hres : resolveAnilistId meta oracle cache id
            = findInternalIdFromAnilist meta oracle cache id := by
          simp [resolveAnilistId, hstat, hcache]
        rw [hres] at hne ⊢
        cases meta with
        | fail => exact absurd rfl hne
        | noMedia => exact absurd rfl hne
        | ok m =>
          have hsf := searchLoop_frame oracle cache id (buildAllSearchTerms m)
          simp only [findInternalIdFromAnilist] at hne ⊢
          exact hsf.2 hne
  · intro hnone
    cases hstat : cacheLookup ANILIST_ID_MAPPING id with
    | some v => simp [resolveAnilistId, hstat] at hnone
    | none =>
      cases hcache : cacheLookup cache id with
      | some v => simp [resolveAnilistId, hstat, hcache] at hnone
      | none =>
        have hres : resolveAnilistId meta oracle cache id
            = findInternalIdFromAnilist meta oracle cache id := by
          simp [resolveAnilistId, hstat, hcache]
        rw [hres] at hnone ⊢
        cases meta with
        | fail => rfl
        | noMedia => rfl
        | ok m =>
          have hsf := searchLoop_frame oracle cache id (buildAllSearchTerms m)
          simp only [findInternalIdFromAnilist] at hnone ⊢
          exact hsf.1 hnone
  · intro hne
    cases hstat : cacheLookup P001_ANILIST_ID_MAPPING id with
    | some v => exact absurd (by simp [p001_findInternalIdFromAnilist, hstat]) hne
    | none =>
      cases hcache : cacheLookup cache id with
      | some v => exact absurd (by simp [p001_findInternalIdFromAnilist, hstat, hcache]) hne
      | none =>
        refine ⟨rfl, rfl, ?_⟩
        cases meta2 with
        | none => exact absurd (by simp [p001_findInternalIdFromAnilist, hstat, hcache]) hne
        | some m =>
          cases hfts : findInternalIdByTitleSearch oracle2 (p001TitleVariations m) with
          | none =>
            exact absurd (by simp [p001_findInternalIdFromAnilist, hstat, hcache, hfts]) hne
          | some iid =>
            exact ⟨iid, by simp [p001_findInternalIdFromAnilist, hstat, hcache, hfts],
                   by simp [p001_findInternalIdFromAnilist, hstat, hcache, hfts]⟩
  · intro hnone
    cases hstat : cacheLookup P001_ANILIST_ID_MAPPING id with
    | some v => simp [p001_findInternalIdFromAnilist, hstat] at hnone
    | none =>
      cases hcache : cacheLookup cache id with
      | some v => simp [p001_findInternalIdFromAnilist, hstat, hcache] at hnone
      | none =>
        cases meta2 with
        | none => simp [p001_findInternalIdFromAnilist, hstat, hcache]
        | some m =>
          cases hfts : findInternalIdByTitleSearch oracle2 (p001TitleVariations m) with
          | none => simp [p001_findInternalIdFromAnilist, hstat, hcache, hfts]
          | some iid => simp [p001_findInternalIdFromAnilist, hstat, hcache, hfts] at hnone

/-- Metadata for the C9 witness-side dynamic resolution. -/
def metaC9 : MetaOutcome :=
  MetaOutcome.ok { english := some "Gamma Delta", romaji := none, synonyms := [] }

/-- Oracle for the C9 witness: one exact-match result. -/
def oracleC9 : String → Fetch (List RawItem) := fun t =>
  if t = "Gamma Delta" then
    Fetch.ok [{ titleText := "Gamma Delta", href := some "/watch/gamma-delta" }]
  else Fetch.fail

/-- C9 witness: a successful dynamic resolution for an unmapped id changes
the cache, and the change is exactly the insertion of the resolved id after
a static miss and a cache miss. -/
theorem C9_witness :
    cacheLookup ANILIST_ID_MAPPING "500" = none ∧ cacheLookup [] "500" = none
    ∧ ∃ v, (resolveAnilistId metaC9 oracleC9 [] "500").1 = some v
         ∧ (resolveAnilistId metaC9 oracleC9 [] "500").2.1 = cacheInsert [] "500" v :=
  (C9_cache_write_discipline metaC9 oracleC9 none oracleC9 [] "500").1 (by decide)
